import Mathlib

/-! # SimbodyTreeState.h: staged state and cache containers

A shallow embedding of `SimbodyTreeResults` (the cache) and
`SimbodyTreeVariables` (the caller-settable variables) of
`MultibodyComputation/SimbodyRigidBodies/SimbodyTreeState.h`.

* Containers are lists; `resize`, `assign`, `setToNaN`, `setToZero` are
  functions on them.
* The `int` size arguments are natural numbers: the development is about
  non-negative counts only.
* A member function is a function on the object's state.  `allocateCache`
  starts with an `assert`; the embedding is of the build in which the
  assertion is compiled in, and it returns the outcome of the call together
  with the state the object is in when the call stops.
* What the header calls "uninitialized junk" is read from a `Junk` oracle,
  so that nothing proved here depends on it.
-/

namespace simtk

/-! ## The types of `simbody/Simbody.h` used by the header -/

/-- Modelled from the spec: the enumeration `SBStage` is declared in
`simbody/Simbody.h`, which is not part of the sources.  The levels are those
the specification lists, ascending:
`Uninitialized < Built < Modeled < Parametrized < Configured < Moving < Dynamical`. -/
inductive SBStage where
  | UninitializedStage
  | BuiltStage
  | ModeledStage
  | ParametrizedStage
  | ConfiguredStage
  | MovingStage
  | DynamicalStage
  deriving DecidableEq, Repr

namespace SBStage

/-- The integer value of an enumerator, in declaration order. -/
def toNat : SBStage → Nat
  | UninitializedStage => 0
  | BuiltStage => 1
  | ModeledStage => 2
  | ParametrizedStage => 3
  | ConfiguredStage => 4
  | MovingStage => 5
  | DynamicalStage => 6

instance : LE SBStage := ⟨fun a b => a.toNat ≤ b.toNat⟩
instance : LT SBStage := ⟨fun a b => a.toNat < b.toNat⟩
instance (a b : SBStage) : Decidable (a ≤ b) := inferInstanceAs (Decidable (a.toNat ≤ b.toNat))
instance (a b : SBStage) : Decidable (a < b) := inferInstanceAs (Decidable (a.toNat < b.toNat))

end SBStage

export SBStage (UninitializedStage BuiltStage ModeledStage ParametrizedStage
  ConfiguredStage MovingStage DynamicalStage)

/-- Modelled from the spec: the scalar `Real` of `simbody/Simbody.h` (not part
of the sources).  Only two things about a scalar matter to the header: whether
it is the not-a-number sentinel, and otherwise which number it is; a number is
stood for by an integer code, `0` for zero. -/
inductive Real where
  | NaN
  | num (x : Int)
  deriving DecidableEq, Repr

instance : Zero Real := ⟨Real.num 0⟩

/-- An element type with a not-a-number sentinel, the value `setToNaN` writes. -/
class HasNaN (α : Type) where
  /-- The not-a-number sentinel of the type. -/
  nan : α

instance : HasNaN Real := ⟨Real.NaN⟩

/-- Modelled from the spec: `Vec3`, a vector of three scalars
(`simbody/Simbody.h`, not part of the sources). -/
structure Vec3 where
  x : Real
  y : Real
  z : Real
  deriving DecidableEq, Repr

/-- The `Vec3` whose three entries are not-a-number. -/
def Vec3.NaN : Vec3 := ⟨Real.NaN, Real.NaN, Real.NaN⟩

instance : Zero Vec3 := ⟨⟨0, 0, 0⟩⟩

/-- Modelled from the spec: `SpatialVec`, the 6-dimensional spatial vector, an
angular and a linear `Vec3` (`simbody/Simbody.h`, not part of the sources). -/
structure SpatialVec where
  angular : Vec3
  linear : Vec3
  deriving DecidableEq, Repr

/-- The spatial vector all of whose entries are not-a-number. -/
def SpatialVec.NaN : SpatialVec := ⟨Vec3.NaN, Vec3.NaN⟩

instance : Zero SpatialVec := ⟨⟨0, 0⟩⟩

instance : HasNaN SpatialVec := ⟨SpatialVec.NaN⟩

/-- Modelled from the spec: `Mat33`, three rows of `Vec3`
(`simbody/Simbody.h`, not part of the sources). -/
structure Mat33 where
  row0 : Vec3
  row1 : Vec3
  row2 : Vec3
  deriving DecidableEq, Repr

/-- Modelled from the spec: `SpatialMat`, the spatial (6 by 6) matrix as two by
two blocks of `Mat33` (`simbody/Simbody.h`, not part of the sources). -/
structure SpatialMat where
  m00 : Mat33
  m01 : Mat33
  m10 : Mat33
  m11 : Mat33
  deriving DecidableEq, Repr

/-- Modelled from the spec: `TransformMat`, a rigid transform: a rotation and a
translation (`simbody/Simbody.h`, not part of the sources). -/
structure TransformMat where
  rotation : Mat33
  translation : Vec3
  deriving DecidableEq, Repr

/-! ## Containers -/

/-- The `std::vector<T>` of the C++ library, as the list of its elements. -/
abbrev StdVector (α : Type) := List α

namespace StdVector

/-- The member `std::vector<T>::resize(n)`: the first `n` elements are kept, and a
longer vector is filled up with value-initialised elements `init`. -/
def resize {α : Type} (init : α) (n : Nat) (v : StdVector α) : StdVector α :=
  v.take n ++ List.replicate (n - v.length) init

/-- The member `std::vector<T>::assign(n, x)`: the content becomes `n` copies of `x`. -/
def assign {α : Type} (n : Nat) (x : α) (_v : StdVector α) : StdVector α :=
  List.replicate n x

end StdVector

/-- Modelled from the spec: the class template `Vector_<T>` is declared in
`simbody/Simbody.h`, which is not part of the sources.  A vector is the list of
its elements. -/
abbrev Vector_ (α : Type) := List α

/-- The type `Vector` is `Vector_<Real>`. -/
abbrev Vector := Vector_ Real

namespace Vector_

/-- Modelled from the spec: `Vector_<T>::resize(n)` (not part of the sources)
leaves a vector of length `n` whose content is unspecified; entry `i` of it is
read from `junk i`. -/
def resize {α : Type} (junk : Nat → α) (n : Nat) (_v : Vector_ α) : Vector_ α :=
  (List.range n).map junk

/-- Modelled from the spec: `setToNaN()` (not part of the sources) overwrites
every entry with the not-a-number sentinel of the element type; the length
stays. -/
def setToNaN {α : Type} [HasNaN α] (v : Vector_ α) : Vector_ α :=
  v.map fun _ => HasNaN.nan

/-- Modelled from the spec: `setToZero()` (not part of the sources) overwrites
every entry with zero; the length stays. -/
def setToZero {α : Type} [Zero α] (v : Vector_ α) : Vector_ α :=
  v.map fun _ => 0

end Vector_

/-- Modelled from the spec: the class template `Matrix_<T>` is declared in
`simbody/Simbody.h`, which is not part of the sources.  A matrix is its two
dimensions and the list of its `nrow * ncol` elements. -/
structure Matrix_ (α : Type) where
  nrow : Nat := 0
  ncol : Nat := 0
  data : List α := []
  deriving DecidableEq, Repr

/-- Modelled from the spec: `Matrix_<T>::resize(m, n)` (not part of the
sources) leaves an `m` by `n` matrix whose content is unspecified; element `i`
of it is read from `junk i`. -/
def Matrix_.resize {α : Type} (junk : Nat → α) (m n : Nat) (_a : Matrix_ α) : Matrix_ α :=
  { nrow := m, ncol := n, data := (List.range (m * n)).map junk }

/-- The content of storage that a statement leaves uninitialised: for each
element type, the value found by the `site`-th resizing statement of a
function at index `i`.  Everything below holds for every `Junk`. -/
structure Junk where
  transformMat : Nat → TransformMat
  spatialMat : Nat → Nat → SpatialMat
  spatialVec : Nat → Nat → SpatialVec
  vec3 : Nat → Nat → Vec3
  real : Nat → Nat → Real

/-- A concrete `Junk`: zero everywhere. -/
def Junk.zero : Junk :=
  { transformMat := fun _ => ⟨⟨0, 0, 0⟩, 0⟩
    spatialMat := fun _ _ => ⟨⟨0, 0, 0⟩, ⟨0, 0, 0⟩, ⟨0, 0, 0⟩, ⟨0, 0, 0⟩⟩
    spatialVec := fun _ _ => 0
    vec3 := fun _ _ => 0
    real := fun _ _ => 0 }

/-- How a call ends: it returns, or an `assert` of it fails. -/
inductive Outcome where
  | returned
  | PreconditionViolation
  deriving DecidableEq, Repr

/-! ## `class SimbodyTreeResults` -/

/-- The data members of `SimbodyTreeResults`.  The default value of each field
is the one the constructor `SimbodyTreeResults() : stage(UninitializedStage)`
leaves: "everything has length 0". -/
structure SimbodyTreeResults where
  stage : SBStage := UninitializedStage
  bodyConfigInParent : StdVector TransformMat := []
  bodyConfigInGround : StdVector TransformMat := []
  bodySpatialInertia : Vector_ SpatialMat := []
  positionConstraintErrors : Vector := []
  storageForHt : Matrix_ Vec3 := {}
  bodyVelocityInParent : Vector_ SpatialVec := []
  bodyVelocityInGround : Vector_ SpatialVec := []
  velocityConstraintErrors : Vector := []
  qdot : Vector := []
  articulatedBodyInertia : Vector_ SpatialMat := []
  bodyAccelerationInGround : Vector_ SpatialVec := []
  coriolisForces : Vector_ SpatialVec := []
  udot : Vector := []
  lambda : Vector := []
  accelerationConstraintErrors : Vector := []
  netHingeForces : Vector := []
  qdotdot : Vector := []
  storageForDI : Vector_ Real := []
  storageForG : Matrix_ Vec3 := {}
  nu : Vector := []
  epsilon : Vector := []
  deriving DecidableEq

namespace SimbodyTreeResults

/-- The statements of `allocateCache` after its `assert`: the stage is rolled
back to `BuiltStage` and the twenty-one containers are resized.  Each
statement writes one data member and reads no other, so the state after the
last one is given member by member, in the order of the statements. -/
def allocateCacheBody (junk : Junk) (nBodies nDofs nSqDofs maxNQs npc nvc nac : Nat)
    (s : SimbodyTreeResults) : SimbodyTreeResults :=
  { stage := BuiltStage
    bodyConfigInParent := s.bodyConfigInParent.resize (junk.transformMat 0) nBodies
    bodyConfigInGround := s.bodyConfigInGround.resize (junk.transformMat 1) nBodies
    bodySpatialInertia := s.bodySpatialInertia.resize (junk.spatialMat 2) nBodies
    positionConstraintErrors := s.positionConstraintErrors.resize (junk.real 3) npc
    storageForHt := s.storageForHt.resize (junk.vec3 4) 2 nDofs
    bodyVelocityInParent := s.bodyVelocityInParent.resize (junk.spatialVec 5) nBodies
    bodyVelocityInGround := s.bodyVelocityInGround.resize (junk.spatialVec 6) nBodies
    velocityConstraintErrors := s.velocityConstraintErrors.resize (junk.real 7) nvc
    qdot := s.qdot.resize (junk.real 8) maxNQs
    articulatedBodyInertia := s.articulatedBodyInertia.resize (junk.spatialMat 9) nBodies
    bodyAccelerationInGround := s.bodyAccelerationInGround.resize (junk.spatialVec 10) nBodies
    coriolisForces := s.coriolisForces.resize (junk.spatialVec 11) nBodies
    udot := s.udot.resize (junk.real 12) nDofs
    lambda := s.lambda.resize (junk.real 13) nac
    accelerationConstraintErrors := s.accelerationConstraintErrors.resize (junk.real 14) nac
    netHingeForces := s.netHingeForces.resize (junk.real 15) nDofs
    qdotdot := s.qdotdot.resize (junk.real 16) maxNQs
    storageForDI := s.storageForDI.resize (junk.real 17) nSqDofs
    storageForG := s.storageForG.resize (junk.vec3 18) 2 nDofs
    nu := s.nu.resize (junk.real 19) nDofs
    epsilon := s.epsilon.resize (junk.real 20) nDofs }

/-- The member `allocateCache`: `assert(stage >= BuiltStage)`, then the body.
A failed assertion stops the call before any statement has run, with the
object as it was. -/
def allocateCache (junk : Junk) (nBodies nDofs nSqDofs maxNQs npc nvc nac : Nat)
    (s : SimbodyTreeResults) : Outcome × SimbodyTreeResults :=
  if BuiltStage ≤ s.stage then
    (Outcome.returned, allocateCacheBody junk nBodies nDofs nSqDofs maxNQs npc nvc nac s)
  else
    (Outcome.PreconditionViolation, s)

/-- The lengths the comments on the data members give (`nb`, `npc`, `2 x ndof`,
`nvc`, `nq`, `nu`, `nac`, `sum(nu[j]^2)`), for the seven counts. -/
def SizedBy (s : SimbodyTreeResults) (nBodies nDofs nSqDofs maxNQs npc nvc nac : Nat) : Prop :=
  s.bodyConfigInParent.length = nBodies ∧
  s.bodyConfigInGround.length = nBodies ∧
  s.bodySpatialInertia.length = nBodies ∧
  s.bodyVelocityInParent.length = nBodies ∧
  s.bodyVelocityInGround.length = nBodies ∧
  s.articulatedBodyInertia.length = nBodies ∧
  s.bodyAccelerationInGround.length = nBodies ∧
  s.coriolisForces.length = nBodies ∧
  s.udot.length = nDofs ∧
  s.netHingeForces.length = nDofs ∧
  s.nu.length = nDofs ∧
  s.epsilon.length = nDofs ∧
  (s.storageForHt.nrow = 2 ∧ s.storageForHt.ncol = nDofs ∧
    s.storageForHt.data.length = 2 * nDofs) ∧
  (s.storageForG.nrow = 2 ∧ s.storageForG.ncol = nDofs ∧
    s.storageForG.data.length = 2 * nDofs) ∧
  s.qdot.length = maxNQs ∧
  s.qdotdot.length = maxNQs ∧
  s.positionConstraintErrors.length = npc ∧
  s.velocityConstraintErrors.length = nvc ∧
  s.lambda.length = nac ∧
  s.accelerationConstraintErrors.length = nac ∧
  s.storageForDI.length = nSqDofs

instance (s : SimbodyTreeResults) (nBodies nDofs nSqDofs maxNQs npc nvc nac : Nat) :
    Decidable (s.SizedBy nBodies nDofs nSqDofs maxNQs npc nvc nac) := by
  unfold SizedBy; infer_instance

/-- The length of every container of the cache, in the order of the data
members; a matrix gives its rows, its columns and its number of elements. -/
def fieldLengths (s : SimbodyTreeResults) : List Nat :=
  [ s.bodyConfigInParent.length, s.bodyConfigInGround.length, s.bodySpatialInertia.length,
    s.positionConstraintErrors.length,
    s.storageForHt.nrow, s.storageForHt.ncol, s.storageForHt.data.length,
    s.bodyVelocityInParent.length, s.bodyVelocityInGround.length,
    s.velocityConstraintErrors.length, s.qdot.length,
    s.articulatedBodyInertia.length, s.bodyAccelerationInGround.length,
    s.coriolisForces.length,
    s.udot.length, s.lambda.length, s.accelerationConstraintErrors.length,
    s.netHingeForces.length, s.qdotdot.length,
    s.storageForDI.length,
    s.storageForG.nrow, s.storageForG.ncol, s.storageForG.data.length,
    s.nu.length, s.epsilon.length ]

/-- The seven arguments of one call of `allocateCache`. -/
structure Sizing where
  nBodies : Nat
  nDofs : Nat
  nSqDofs : Nat
  maxNQs : Nat
  npc : Nat
  nvc : Nat
  nac : Nat

/-- The state of the cache after a sequence of calls of `allocateCache`, each
with its own arguments and its own uninitialised content, whatever the
outcome of each call. -/
def afterCalls (calls : List (Junk × Sizing)) (s : SimbodyTreeResults) : SimbodyTreeResults :=
  calls.foldl
    (fun s c => (allocateCache c.1 c.2.nBodies c.2.nDofs c.2.nSqDofs c.2.maxNQs
      c.2.npc c.2.nvc c.2.nac s).2) s

end SimbodyTreeResults

/-! ## `class SimbodyTreeVariables` -/

/-- The data members of `SimbodyTreeVariables`.  The default value of each
field is the one the constructor `SimbodyTreeVariables() : useEulerAngles(false)`
leaves: the containers are empty. -/
structure SimbodyTreeVariables where
  useEulerAngles : Bool := false
  prescribed : StdVector Bool := []
  enabled : StdVector Bool := []
  q : Vector := []
  u : Vector := []
  appliedBodyForces : Vector_ SpatialVec := []
  appliedJointForces : Vector := []
  prescribedUdot : Vector := []
  deriving DecidableEq, Repr

namespace SimbodyTreeVariables

/-- The member `allocateModelingVars`: `useEulerAngles = false`, then `prescribed`
and `enabled` are resized and assigned `false` throughout. -/
def allocateModelingVars (nBodies nConstraints : Nat) (s : SimbodyTreeVariables) :
    SimbodyTreeVariables :=
  { s with
    useEulerAngles := false
    prescribed := (s.prescribed.resize false nBodies).assign nBodies false
    enabled := (s.enabled.resize false nConstraints).assign nConstraints false }

/-- The member `allocateAllVars`: `nBodies` is read from `prescribed.size()`, then
the five numeric containers are resized and set to not-a-number.  The
argument `nac` and the local `nConstraints` are not used by the source. -/
def allocateAllVars (junk : Junk) (nDofs maxNQs _nac : Nat) (s : SimbodyTreeVariables) :
    SimbodyTreeVariables :=
  let nBodies := s.prescribed.length
  let _nConstraints := s.enabled.length
  { s with
    q := (s.q.resize (junk.real 0) maxNQs).setToNaN
    u := (s.u.resize (junk.real 1) nDofs).setToNaN
    appliedBodyForces := (s.appliedBodyForces.resize (junk.spatialVec 2) nBodies).setToNaN
    appliedJointForces := (s.appliedJointForces.resize (junk.real 3) nDofs).setToNaN
    prescribedUdot := (s.prescribedUdot.resize (junk.real 4) nDofs).setToNaN }

/-- The member `setVelocitiesToZero`: `u.setToZero()`. -/
def setVelocitiesToZero (s : SimbodyTreeVariables) : SimbodyTreeVariables :=
  { s with u := s.u.setToZero }

/-- The member `clearForces`: `appliedBodyForces.setToZero()`, then
`appliedJointForces.setToZero()`. -/
def clearForces (s : SimbodyTreeVariables) : SimbodyTreeVariables :=
  { s with
    appliedBodyForces := s.appliedBodyForces.setToZero
    appliedJointForces := s.appliedJointForces.setToZero }

/-- The member `setPrescribedAccelerationsToZero`: `prescribedUdot.setToZero()`. -/
def setPrescribedAccelerationsToZero (s : SimbodyTreeVariables) : SimbodyTreeVariables :=
  { s with prescribedUdot := s.prescribedUdot.setToZero }

end SimbodyTreeVariables

/-! ## Sample states -/

/-- A cache that has reached `DynamicalStage` with containers of assorted
lengths, none of them the length a later allocation asks for. -/
def sampleResults : SimbodyTreeResults :=
  { stage := DynamicalStage
    bodyConfigInParent := [Junk.zero.transformMat 0]
    udot := [Real.num 1, Real.num 2]
    lambda := [Real.NaN, Real.num 3, Real.num 4, Real.num 5, Real.num 6]
    storageForG := { nrow := 1, ncol := 1, data := [0] } }

/-- A variables container with flags set and numeric content present. -/
def sampleVariables : SimbodyTreeVariables :=
  { useEulerAngles := true
    prescribed := [true, false, true]
    enabled := [true]
    q := [Real.num 1, Real.num 2]
    u := [Real.num 3, Real.NaN]
    appliedBodyForces := [⟨⟨Real.num 1, Real.num 2, Real.num 3⟩, Vec3.NaN⟩]
    appliedJointForces := [Real.num 4]
    prescribedUdot := [Real.num 5, Real.num 6, Real.NaN] }

/-! ## Container lemmas -/

theorem StdVector.length_resize_std {α : Type} (init : α) (n : Nat) (v : StdVector α) :
    (v.resize init n).length = n := by
  simp only [StdVector.resize, List.length_append, List.length_take, List.length_replicate]
  omega

theorem StdVector.assign_eq {α : Type} (n : Nat) (x : α) (v : StdVector α) :
    v.assign n x = List.replicate n x := rfl

theorem Vector_.length_resize {α : Type} (junk : Nat → α) (n : Nat) (v : Vector_ α) :
    (v.resize junk n).length = n := by
  simp [Vector_.resize]

theorem Vector_.length_setToNaN {α : Type} [HasNaN α] (v : Vector_ α) :
    v.setToNaN.length = v.length := by
  simp [Vector_.setToNaN]

theorem Vector_.setToNaN_eq {α : Type} [HasNaN α] (v : Vector_ α) :
    v.setToNaN = List.replicate v.length HasNaN.nan := by
  simp [Vector_.setToNaN]

theorem Vector_.length_setToZero {α : Type} [Zero α] (v : Vector_ α) :
    v.setToZero.length = v.length := by
  simp [Vector_.setToZero]

theorem Vector_.setToZero_eq {α : Type} [Zero α] (v : Vector_ α) :
    v.setToZero = List.replicate v.length 0 := by
  simp [Vector_.setToZero]

theorem Matrix_.resize_dims {α : Type} (junk : Nat → α) (m n : Nat) (a : Matrix_ α) :
    (a.resize junk m n).nrow = m ∧ (a.resize junk m n).ncol = n ∧
      (a.resize junk m n).data.length = m * n := by
  simp [Matrix_.resize]

theorem SBStage.le_iff (a b : SBStage) : a ≤ b ↔ a.toNat ≤ b.toNat := Iff.rfl

theorem SBStage.lt_iff (a b : SBStage) : a < b ↔ a.toNat < b.toNat := Iff.rfl

/-! ## `allocateCache` -/

namespace SimbodyTreeResults

/-- C1. For a cache whose stage is at least `BuiltStage` and any seven counts,
`allocateCache` returns, and afterwards the eight per-body members have
length `nBodies`; `udot`, `netHingeForces`, `nu`, `epsilon` length `nDofs`;
`storageForHt` and `storageForG` 2 rows and `nDofs` columns; `qdot`, `qdotdot`
length `maxNQs`; `positionConstraintErrors` length `npc`;
`velocityConstraintErrors` length `nvc`; `lambda` and
`accelerationConstraintErrors` length `nac`; `storageForDI` length `nSqDofs`. -/
theorem allocateCache_sized (junk : Junk) (nBodies nDofs nSqDofs maxNQs npc nvc nac : Nat)
    (s : SimbodyTreeResults) (h : BuiltStage ≤ s.stage) :
    (allocateCache junk nBodies nDofs nSqDofs maxNQs npc nvc nac s).1 = Outcome.returned ∧
    (allocateCache junk nBodies nDofs nSqDofs maxNQs npc nvc nac s).2.SizedBy
      nBodies nDofs nSqDofs maxNQs npc nvc nac := by
  simp only [allocateCache, if_pos h, SizedBy, allocateCacheBody, StdVector.length_resize_std,
    Vector_.length_resize, Matrix_.resize_dims, and_self]

/-- The C1 statement at `sampleResults` (stage `DynamicalStage`) and the counts
`3, 5, 9, 7, 1, 2, 4`. -/
theorem allocateCache_sized_witness :
    BuiltStage ≤ sampleResults.stage ∧
    (allocateCache Junk.zero 3 5 9 7 1 2 4 sampleResults).1 = Outcome.returned ∧
    (allocateCache Junk.zero 3 5 9 7 1 2 4 sampleResults).2.SizedBy 3 5 9 7 1 2 4 :=
  ⟨by decide, allocateCache_sized Junk.zero 3 5 9 7 1 2 4 sampleResults (by decide)⟩

/-- C2. For a cache whose stage is at least `BuiltStage` (any of `BuiltStage`,
`ModeledStage`, `ParametrizedStage`, `ConfiguredStage`, `MovingStage`,
`DynamicalStage`) and any seven counts, the stage after `allocateCache` is
exactly `BuiltStage`. -/
theorem allocateCache_stage (junk : Junk) (nBodies nDofs nSqDofs maxNQs npc nvc nac : Nat)
    (s : SimbodyTreeResults) (h : BuiltStage ≤ s.stage) :
    (allocateCache junk nBodies nDofs nSqDofs maxNQs npc nvc nac s).2.stage = BuiltStage := by
  simp only [allocateCache, if_pos h, allocateCacheBody]

/-- The C2 statement at `sampleResults`, whose stage is `DynamicalStage`. -/
theorem allocateCache_stage_witness :
    sampleResults.stage = DynamicalStage ∧ BuiltStage ≤ sampleResults.stage ∧
    (allocateCache Junk.zero 3 5 9 7 1 2 4 sampleResults).2.stage = BuiltStage :=
  ⟨rfl, by decide, allocateCache_stage Junk.zero 3 5 9 7 1 2 4 sampleResults (by decide)⟩

/-- C3. `allocateCache` ends in a precondition violation exactly when the stage is
below `BuiltStage`, which is exactly when it is `UninitializedStage`; and
whenever it does, the whole state (stage and every member) is the one before
the call, whatever the seven counts. -/
theorem allocateCache_violation (junk : Junk) (nBodies nDofs nSqDofs maxNQs npc nvc nac : Nat)
    (s : SimbodyTreeResults) :
    ((allocateCache junk nBodies nDofs nSqDofs maxNQs npc nvc nac s).1 =
        Outcome.PreconditionViolation ↔ s.stage < BuiltStage) ∧
    (s.stage < BuiltStage ↔ s.stage = UninitializedStage) ∧
    ((allocateCache junk nBodies nDofs nSqDofs maxNQs npc nvc nac s).1 =
        Outcome.PreconditionViolation →
      (allocateCache junk nBodies nDofs nSqDofs maxNQs npc nvc nac s).2 = s) := by
  have hlt : s.stage < BuiltStage ↔ ¬ BuiltStage ≤ s.stage := by
    rw [SBStage.lt_iff, SBStage.le_iff]; omega
  refine ⟨?_, ?_, ?_⟩
  · rw [hlt]
    by_cases h : BuiltStage ≤ s.stage <;> simp [allocateCache, h]
  · cases hs : s.stage <;> decide
  · by_cases h : BuiltStage ≤ s.stage <;> simp [allocateCache, h]

/-- The C3 statement on the freshly constructed cache: the call is a precondition
violation and the cache is still the freshly constructed one. -/
theorem allocateCache_violation_witness :
    ({} : SimbodyTreeResults).stage < BuiltStage ∧
    (allocateCache Junk.zero 3 5 9 7 1 2 4 {}).1 = Outcome.PreconditionViolation ∧
    (allocateCache Junk.zero 3 5 9 7 1 2 4 {}).2 = {} :=
  have h := allocateCache_violation Junk.zero 3 5 9 7 1 2 4 {}
  have hlt : ({} : SimbodyTreeResults).stage < BuiltStage := by decide
  ⟨hlt, h.1.2 hlt, h.2.2 (h.1.2 hlt)⟩

end SimbodyTreeResults

/-! ## The allocation waves of `SimbodyTreeVariables` -/

namespace SimbodyTreeVariables

/-- C4. For every earlier state and all counts, after
`allocateModelingVars(nBodies, nConstraints)` the member `prescribed` has length
`nBodies` and every entry `false`, `enabled` has length `nConstraints` and every
entry `false`, and `useEulerAngles` is `false`: no earlier flag survives. -/
theorem allocateModelingVars_flags (nBodies nConstraints : Nat) (v : SimbodyTreeVariables) :
    (allocateModelingVars nBodies nConstraints v).prescribed.length = nBodies ∧
    (∀ b ∈ (allocateModelingVars nBodies nConstraints v).prescribed, b = false) ∧
    (allocateModelingVars nBodies nConstraints v).enabled.length = nConstraints ∧
    (∀ b ∈ (allocateModelingVars nBodies nConstraints v).enabled, b = false) ∧
    (allocateModelingVars nBodies nConstraints v).useEulerAngles = false := by
  simp only [allocateModelingVars, StdVector.assign_eq, List.length_replicate, true_and, and_true]
  exact ⟨fun b hb => List.eq_of_mem_replicate hb, fun b hb => List.eq_of_mem_replicate hb⟩

/-- The C4 statement at `sampleVariables`, whose flags are set and whose
modeling members have lengths 3 and 1: afterwards they are all `false`. -/
theorem allocateModelingVars_flags_witness :
    sampleVariables.useEulerAngles = true ∧
    (allocateModelingVars 2 4 sampleVariables).prescribed = [false, false] ∧
    (allocateModelingVars 2 4 sampleVariables).enabled = [false, false, false, false] ∧
    (allocateModelingVars 2 4 sampleVariables).useEulerAngles = false :=
  have h := allocateModelingVars_flags 2 4 sampleVariables
  ⟨rfl, by decide, by decide, h.2.2.2.2⟩

/-- C5. For all counts and every earlier state, after
`allocateModelingVars(nBodies, nConstraints)` and then
`allocateAllVars(nDofs, maxNQs, nac)`: `q` has length `maxNQs`, `u` length `nDofs`,
`appliedBodyForces` length `nBodies`, `appliedJointForces` and `prescribedUdot`
length `nDofs`, and every entry of the five is the not-a-number sentinel,
which is not zero. -/
theorem allocateAllVars_after_modeling (junk : Junk)
    (nBodies nConstraints nDofs maxNQs nac : Nat) (v : SimbodyTreeVariables) :
    (allocateAllVars junk nDofs maxNQs nac (allocateModelingVars nBodies nConstraints v)).q.length
      = maxNQs ∧
    (allocateAllVars junk nDofs maxNQs nac (allocateModelingVars nBodies nConstraints v)).u.length
      = nDofs ∧
    (allocateAllVars junk nDofs maxNQs nac
      (allocateModelingVars nBodies nConstraints v)).appliedBodyForces.length = nBodies ∧
    (allocateAllVars junk nDofs maxNQs nac
      (allocateModelingVars nBodies nConstraints v)).appliedJointForces.length = nDofs ∧
    (allocateAllVars junk nDofs maxNQs nac
      (allocateModelingVars nBodies nConstraints v)).prescribedUdot.length = nDofs ∧
    (∀ x ∈ (allocateAllVars junk nDofs maxNQs nac
      (allocateModelingVars nBodies nConstraints v)).q, x = Real.NaN ∧ x ≠ 0) ∧
    (∀ x ∈ (allocateAllVars junk nDofs maxNQs nac
      (allocateModelingVars nBodies nConstraints v)).u, x = Real.NaN ∧ x ≠ 0) ∧
    (∀ x ∈ (allocateAllVars junk nDofs maxNQs nac
      (allocateModelingVars nBodies nConstraints v)).appliedBodyForces,
        x = SpatialVec.NaN ∧ x ≠ 0) ∧
    (∀ x ∈ (allocateAllVars junk nDofs maxNQs nac
      (allocateModelingVars nBodies nConstraints v)).appliedJointForces, x = Real.NaN ∧ x ≠ 0) ∧
    (∀ x ∈ (allocateAllVars junk nDofs maxNQs nac
      (allocateModelingVars nBodies nConstraints v)).prescribedUdot, x = Real.NaN ∧ x ≠ 0) := by
  have hr : ∀ (n : Nat) (x : Real), x ∈ List.replicate n (HasNaN.nan : Real) →
      x = Real.NaN ∧ x ≠ 0 := by
    intro n x hx
    rw [List.eq_of_mem_replicate hx]
    exact ⟨rfl, by decide⟩
  have hs : ∀ (n : Nat) (x : SpatialVec), x ∈ List.replicate n (HasNaN.nan : SpatialVec) →
      x = SpatialVec.NaN ∧ x ≠ 0 := by
    intro n x hx
    rw [List.eq_of_mem_replicate hx]
    exact ⟨rfl, by decide⟩
  simp only [allocateAllVars, allocateModelingVars, StdVector.assign_eq, Vector_.setToNaN_eq,
    Vector_.length_resize, List.length_replicate, true_and]
  exact ⟨hr _, hr _, hs _, hr _, hr _⟩

/-- The C5 statement at `sampleVariables` with `nBodies = 2`, `nDofs = 1`,
`maxNQs = 3`: the content of the five numeric members. -/
theorem allocateAllVars_after_modeling_witness :
    (allocateAllVars Junk.zero 1 3 5 (allocateModelingVars 2 4 sampleVariables)).q
      = [Real.NaN, Real.NaN, Real.NaN] ∧
    (allocateAllVars Junk.zero 1 3 5 (allocateModelingVars 2 4 sampleVariables)).u
      = [Real.NaN] ∧
    (allocateAllVars Junk.zero 1 3 5 (allocateModelingVars 2 4 sampleVariables)).appliedBodyForces
      = [SpatialVec.NaN, SpatialVec.NaN] ∧
    (allocateAllVars Junk.zero 1 3 5
      (allocateModelingVars 2 4 sampleVariables)).appliedJointForces.length = 1 ∧
    (allocateAllVars Junk.zero 1 3 5
      (allocateModelingVars 2 4 sampleVariables)).prescribedUdot.length = 1 :=
  have h := allocateAllVars_after_modeling Junk.zero 2 4 1 3 5 sampleVariables
  ⟨by decide, by decide, by decide, h.2.2.2.1, h.2.2.2.2.1⟩

/-- C6, as the specification has it, fails: `allocateAllVars(2, 3, 1)` on the
freshly constructed container changes it, `q` going from empty to three
not-a-number entries and `u` from empty to two. -/
theorem allocateAllVars_fresh_mutates :
    ({} : SimbodyTreeVariables).q = [] ∧
    (allocateAllVars Junk.zero 2 3 1 {}).q = [Real.NaN, Real.NaN, Real.NaN] ∧
    (allocateAllVars Junk.zero 2 3 1 {}).u = [Real.NaN, Real.NaN] ∧
    ¬ (allocateAllVars Junk.zero 2 3 1 {} = ({} : SimbodyTreeVariables)) := by
  decide

/-- C6, amended. `allocateAllVars` has no precondition: it is a total function of
the state, and on the freshly constructed container (on which
`allocateModelingVars` was never called) it gives, for all `nDofs`, `maxNQs`,
`nac`: `q` as `maxNQs` not-a-number entries; `u`, `appliedJointForces` and
`prescribedUdot` as `nDofs` not-a-number entries; `appliedBodyForces` empty; the
modeling members as constructed.  The freshly constructed container is also
the state `allocateModelingVars(0, 0)` leaves it in. -/
theorem allocateAllVars_fresh (junk : Junk) (nDofs maxNQs nac : Nat) :
    allocateAllVars junk nDofs maxNQs nac {} =
      { useEulerAngles := false
        prescribed := []
        enabled := []
        q := List.replicate maxNQs Real.NaN
        u := List.replicate nDofs Real.NaN
        appliedBodyForces := []
        appliedJointForces := List.replicate nDofs Real.NaN
        prescribedUdot := List.replicate nDofs Real.NaN } ∧
    allocateModelingVars 0 0 {} = ({} : SimbodyTreeVariables) := by
  constructor
  · simp only [allocateAllVars, Vector_.setToNaN_eq, Vector_.length_resize, List.length_nil,
      List.replicate_zero]
    rfl
  · rfl

/-! ## The zeroing members and idempotence -/

/-- C7. For every state, `setVelocitiesToZero` leaves `u` with its length and every
entry zero, and `q`, `appliedBodyForces`, `appliedJointForces`, `prescribedUdot`,
`useEulerAngles`, `prescribed`, `enabled` as they were. -/
theorem setVelocitiesToZero_frame (v : SimbodyTreeVariables) :
    (setVelocitiesToZero v).u.length = v.u.length ∧
    (∀ x ∈ (setVelocitiesToZero v).u, x = 0) ∧
    (setVelocitiesToZero v).q = v.q ∧
    (setVelocitiesToZero v).appliedBodyForces = v.appliedBodyForces ∧
    (setVelocitiesToZero v).appliedJointForces = v.appliedJointForces ∧
    (setVelocitiesToZero v).prescribedUdot = v.prescribedUdot ∧
    (setVelocitiesToZero v).useEulerAngles = v.useEulerAngles ∧
    (setVelocitiesToZero v).prescribed = v.prescribed ∧
    (setVelocitiesToZero v).enabled = v.enabled := by
  simp only [setVelocitiesToZero, Vector_.setToZero_eq, List.length_replicate, true_and, and_true]
  exact fun x hx => List.eq_of_mem_replicate hx

/-- The C7 statement at `sampleVariables`, whose `u` is a number and a
not-a-number: afterwards `u` is two zeros and `q` is as before. -/
theorem setVelocitiesToZero_frame_witness :
    sampleVariables.u = [Real.num 3, Real.NaN] ∧
    (setVelocitiesToZero sampleVariables).u = [0, 0] ∧
    (setVelocitiesToZero sampleVariables).q = sampleVariables.q :=
  ⟨rfl, by decide, (setVelocitiesToZero_frame sampleVariables).2.2.1⟩

/-- C8. For every state, `clearForces` leaves `appliedBodyForces` and
`appliedJointForces` with their lengths and every entry zero (the zero spatial
vector for `appliedBodyForces`), and `q`, `u`, `prescribedUdot` and the modeling
members as they were. -/
theorem clearForces_frame (v : SimbodyTreeVariables) :
    (clearForces v).appliedBodyForces.length = v.appliedBodyForces.length ∧
    (∀ f ∈ (clearForces v).appliedBodyForces, f = (0 : SpatialVec)) ∧
    (clearForces v).appliedJointForces.length = v.appliedJointForces.length ∧
    (∀ x ∈ (clearForces v).appliedJointForces, x = 0) ∧
    (clearForces v).q = v.q ∧
    (clearForces v).u = v.u ∧
    (clearForces v).prescribedUdot = v.prescribedUdot ∧
    (clearForces v).useEulerAngles = v.useEulerAngles ∧
    (clearForces v).prescribed = v.prescribed ∧
    (clearForces v).enabled = v.enabled := by
  simp only [clearForces, Vector_.setToZero_eq, List.length_replicate, true_and, and_true]
  exact ⟨fun f hf => List.eq_of_mem_replicate hf, fun x hx => List.eq_of_mem_replicate hx⟩

/-- The C8 statement at `sampleVariables`: the one applied body force becomes the
zero spatial vector, the one applied joint force zero, `prescribedUdot` stays. -/
theorem clearForces_frame_witness :
    (clearForces sampleVariables).appliedBodyForces
      = [⟨⟨Real.num 0, Real.num 0, Real.num 0⟩, ⟨Real.num 0, Real.num 0, Real.num 0⟩⟩] ∧
    (clearForces sampleVariables).appliedJointForces = [Real.num 0] ∧
    (clearForces sampleVariables).prescribedUdot = [Real.num 5, Real.num 6, Real.NaN] :=
  have h := clearForces_frame sampleVariables
  ⟨by decide, by decide, h.2.2.2.2.2.2.1⟩

/-- C9. For every state, `setPrescribedAccelerationsToZero` leaves `prescribedUdot`
with its length and every entry zero, and `q`, `u`, `appliedBodyForces`,
`appliedJointForces`, `useEulerAngles`, `prescribed`, `enabled` as they were. -/
theorem setPrescribedAccelerationsToZero_frame (v : SimbodyTreeVariables) :
    (setPrescribedAccelerationsToZero v).prescribedUdot.length = v.prescribedUdot.length ∧
    (∀ x ∈ (setPrescribedAccelerationsToZero v).prescribedUdot, x = 0) ∧
    (setPrescribedAccelerationsToZero v).q = v.q ∧
    (setPrescribedAccelerationsToZero v).u = v.u ∧
    (setPrescribedAccelerationsToZero v).appliedBodyForces = v.appliedBodyForces ∧
    (setPrescribedAccelerationsToZero v).appliedJointForces = v.appliedJointForces ∧
    (setPrescribedAccelerationsToZero v).useEulerAngles = v.useEulerAngles ∧
    (setPrescribedAccelerationsToZero v).prescribed = v.prescribed ∧
    (setPrescribedAccelerationsToZero v).enabled = v.enabled := by
  simp only [setPrescribedAccelerationsToZero, Vector_.setToZero_eq, List.length_replicate,
    true_and, and_true]
  exact fun x hx => List.eq_of_mem_replicate hx

/-- The C9 statement at `sampleVariables`: `prescribedUdot` becomes three zeros,
the forces stay. -/
theorem setPrescribedAccelerationsToZero_frame_witness :
    (setPrescribedAccelerationsToZero sampleVariables).prescribedUdot = [0, 0, 0] ∧
    (setPrescribedAccelerationsToZero sampleVariables).appliedJointForces = [Real.num 4] :=
  have h := setPrescribedAccelerationsToZero_frame sampleVariables
  ⟨by decide, h.2.2.2.2.2.1⟩

/-- C10. `allocateModelingVars` is idempotent: for every state and all counts,
calling it twice with the same arguments leaves the same state, member by
member, as calling it once. -/
theorem allocateModelingVars_idempotent (nBodies nConstraints : Nat) (v : SimbodyTreeVariables) :
    allocateModelingVars nBodies nConstraints (allocateModelingVars nBodies nConstraints v) =
      allocateModelingVars nBodies nConstraints v := by
  simp only [allocateModelingVars, StdVector.assign_eq]

/-- The C10 statement at `sampleVariables` with counts 2 and 4, where the one call
does change the state. -/
theorem allocateModelingVars_idempotent_witness :
    allocateModelingVars 2 4 sampleVariables ≠ sampleVariables ∧
    allocateModelingVars 2 4 (allocateModelingVars 2 4 sampleVariables) =
      allocateModelingVars 2 4 sampleVariables :=
  ⟨by decide, allocateModelingVars_idempotent 2 4 sampleVariables⟩

end SimbodyTreeVariables

/-! ## Reallocation of the cache and the stage order -/

namespace SimbodyTreeResults

/-- C11. For a cache whose stage is at least `BuiltStage` and any two tuples of
counts, `allocateCache` with the first and then `allocateCache` with the second
both return, and leave every container with the length the second tuple
gives (whatever the first tuple and the state before the first call), and
the stage `BuiltStage`. -/
theorem allocateCache_twice (junk1 junk2 : Junk)
    (nBodies1 nDofs1 nSqDofs1 maxNQs1 npc1 nvc1 nac1 : Nat)
    (nBodies2 nDofs2 nSqDofs2 maxNQs2 npc2 nvc2 nac2 : Nat)
    (s : SimbodyTreeResults) (h : BuiltStage ≤ s.stage) :
    (allocateCache junk1 nBodies1 nDofs1 nSqDofs1 maxNQs1 npc1 nvc1 nac1 s).1
      = Outcome.returned ∧
    (allocateCache junk2 nBodies2 nDofs2 nSqDofs2 maxNQs2 npc2 nvc2 nac2
      (allocateCache junk1 nBodies1 nDofs1 nSqDofs1 maxNQs1 npc1 nvc1 nac1 s).2).1
      = Outcome.returned ∧
    (allocateCache junk2 nBodies2 nDofs2 nSqDofs2 maxNQs2 npc2 nvc2 nac2
      (allocateCache junk1 nBodies1 nDofs1 nSqDofs1 maxNQs1 npc1 nvc1 nac1 s).2).2.SizedBy
        nBodies2 nDofs2 nSqDofs2 maxNQs2 npc2 nvc2 nac2 ∧
    (allocateCache junk2 nBodies2 nDofs2 nSqDofs2 maxNQs2 npc2 nvc2 nac2
      (allocateCache junk1 nBodies1 nDofs1 nSqDofs1 maxNQs1 npc1 nvc1 nac1 s).2).2.stage
      = BuiltStage := by
  have hb : BuiltStage ≤ BuiltStage := by decide
  have h1 : allocateCache junk1 nBodies1 nDofs1 nSqDofs1 maxNQs1 npc1 nvc1 nac1 s =
      (Outcome.returned,
        allocateCacheBody junk1 nBodies1 nDofs1 nSqDofs1 maxNQs1 npc1 nvc1 nac1 s) := by
    simp only [allocateCache, if_pos h]
  have hs : (allocateCacheBody junk1 nBodies1 nDofs1 nSqDofs1 maxNQs1 npc1 nvc1 nac1 s).stage
      = BuiltStage := rfl
  rw [h1]
  simp only [allocateCache, hs, if_pos hb, SizedBy, allocateCacheBody,
    StdVector.length_resize_std, Vector_.length_resize, Matrix_.resize_dims, and_self]

/-- The C11 statement at `sampleResults`: first the counts `3, 5, 9, 7, 1, 2, 4`,
then `1, 2, 4, 2, 0, 3, 6`. -/
theorem allocateCache_twice_witness :
    BuiltStage ≤ sampleResults.stage ∧
    (allocateCache Junk.zero 1 2 4 2 0 3 6
      (allocateCache Junk.zero 3 5 9 7 1 2 4 sampleResults).2).1 = Outcome.returned ∧
    (allocateCache Junk.zero 1 2 4 2 0 3 6
      (allocateCache Junk.zero 3 5 9 7 1 2 4 sampleResults).2).2.SizedBy 1 2 4 2 0 3 6 ∧
    (allocateCache Junk.zero 1 2 4 2 0 3 6
      (allocateCache Junk.zero 3 5 9 7 1 2 4 sampleResults).2).2.stage = BuiltStage :=
  ⟨by decide,
    (allocateCache_twice Junk.zero Junk.zero 3 5 9 7 1 2 4 1 2 4 2 0 3 6 sampleResults
      (by decide)).2⟩

end SimbodyTreeResults

/-- C12. The stage levels are strictly ordered
`Uninitialized < Built < Modeled < Parametrized < Configured < Moving < Dynamical`;
any two levels are comparable, the order is transitive, irreflexive and
antisymmetric, and the test `stage >= BuiltStage` of `allocateCache` is false
exactly for `UninitializedStage`. -/
theorem SBStage.strict_total_order :
    (UninitializedStage < BuiltStage ∧ BuiltStage < ModeledStage ∧
      ModeledStage < ParametrizedStage ∧ ParametrizedStage < ConfiguredStage ∧
      ConfiguredStage < MovingStage ∧ MovingStage < DynamicalStage) ∧
    (∀ a b : SBStage, a < b ∨ a = b ∨ b < a) ∧
    (∀ a b : SBStage, a ≤ b ∨ b ≤ a) ∧
    (∀ a b c : SBStage, a < b → b < c → a < c) ∧
    (∀ a b c : SBStage, a ≤ b → b ≤ c → a ≤ c) ∧
    (∀ a : SBStage, ¬ a < a) ∧
    (∀ a b : SBStage, a ≤ b → b ≤ a → a = b) ∧
    (∀ a b : SBStage, a ≤ b ↔ a < b ∨ a = b) ∧
    (∀ s : SBStage, ¬ BuiltStage ≤ s ↔ s = UninitializedStage) := by
  refine ⟨by decide, ?_, ?_, ?_, ?_, ?_, ?_, ?_, ?_⟩
  · intro a b; cases a <;> cases b <;> decide
  · intro a b; simp only [SBStage.le_iff]; omega
  · intro a b c; simp only [SBStage.lt_iff]; omega
  · intro a b c; simp only [SBStage.le_iff]; omega
  · intro a; simp only [SBStage.lt_iff]; omega
  · intro a b; cases a <;> cases b <;> decide
  · intro a b; cases a <;> cases b <;> decide
  · intro s; cases s <;> decide

/-! ## Behaviour that follows from the code alone -/

namespace SimbodyTreeResults

/-- C13. The freshly constructed cache has stage `UninitializedStage` and every
container of length 0; `allocateCache` on it is a precondition violation that
leaves it as it is, for all counts; and after any sequence of calls of
`allocateCache` on it the cache is still the freshly constructed one, so its
stage is not `BuiltStage` and every container is empty. -/
theorem fresh_cache_stays_fresh (calls : List (Junk × Sizing)) :
    ({} : SimbodyTreeResults).stage = UninitializedStage ∧
    ({} : SimbodyTreeResults).fieldLengths = List.replicate 25 0 ∧
    (∀ (junk : Junk) (nBodies nDofs nSqDofs maxNQs npc nvc nac : Nat),
      allocateCache junk nBodies nDofs nSqDofs maxNQs npc nvc nac {} =
        (Outcome.PreconditionViolation, {})) ∧
    afterCalls calls {} = {} ∧
    (afterCalls calls {}).stage ≠ BuiltStage ∧
    (afterCalls calls {}).fieldLengths = List.replicate 25 0 := by
  have hcall : ∀ (junk : Junk) (nBodies nDofs nSqDofs maxNQs npc nvc nac : Nat),
      allocateCache junk nBodies nDofs nSqDofs maxNQs npc nvc nac {} =
        (Outcome.PreconditionViolation, {}) := by
    intro junk nBodies nDofs nSqDofs maxNQs npc nvc nac
    have hn : ¬ BuiltStage ≤ ({} : SimbodyTreeResults).stage := by decide
    simp only [allocateCache, if_neg hn]
  have hseq : afterCalls calls {} = {} := by
    induction calls with
    | nil => rfl
    | cons c rest ih =>
      simp only [afterCalls, List.foldl_cons, hcall] at ih ⊢
      exact ih
  refine ⟨rfl, rfl, hcall, hseq, ?_, ?_⟩
  · rw [hseq]; decide
  · rw [hseq]; rfl

/-- The C13 statement for three calls in a row with assorted counts. -/
theorem fresh_cache_stays_fresh_witness :
    afterCalls [(Junk.zero, ⟨3, 5, 9, 7, 1, 2, 4⟩), (Junk.zero, ⟨0, 0, 0, 0, 0, 0, 0⟩),
      (Junk.zero, ⟨1, 2, 4, 2, 0, 3, 6⟩)] {} = {} :=
  (fresh_cache_stays_fresh _).2.2.2.1

/-- C17. For a cache whose stage is at least `BuiltStage` and any counts,
`allocateCache` does not raise the stage; the state it leaves satisfies the
precondition again; and a second `allocateCache` with the same counts returns
and leaves the stage (`BuiltStage`) and the length of every container as the
first call left them. -/
theorem allocateCache_repeatable (junk1 junk2 : Junk)
    (nBodies nDofs nSqDofs maxNQs npc nvc nac : Nat)
    (s : SimbodyTreeResults) (h : BuiltStage ≤ s.stage) :
    (allocateCache junk1 nBodies nDofs nSqDofs maxNQs npc nvc nac s).2.stage ≤ s.stage ∧
    BuiltStage ≤ (allocateCache junk1 nBodies nDofs nSqDofs maxNQs npc nvc nac s).2.stage ∧
    (allocateCache junk2 nBodies nDofs nSqDofs maxNQs npc nvc nac
      (allocateCache junk1 nBodies nDofs nSqDofs maxNQs npc nvc nac s).2).1
      = Outcome.returned ∧
    (allocateCache junk2 nBodies nDofs nSqDofs maxNQs npc nvc nac
      (allocateCache junk1 nBodies nDofs nSqDofs maxNQs npc nvc nac s).2).2.stage
      = BuiltStage ∧
    (allocateCache junk2 nBodies nDofs nSqDofs maxNQs npc nvc nac
      (allocateCache junk1 nBodies nDofs nSqDofs maxNQs npc nvc nac s).2).2.stage
      = (allocateCache junk1 nBodies nDofs nSqDofs maxNQs npc nvc nac s).2.stage ∧
    (allocateCache junk2 nBodies nDofs nSqDofs maxNQs npc nvc nac
      (allocateCache junk1 nBodies nDofs nSqDofs maxNQs npc nvc nac s).2).2.fieldLengths
      = (allocateCache junk1 nBodies nDofs nSqDofs maxNQs npc nvc nac s).2.fieldLengths := by
  have hb : BuiltStage ≤ BuiltStage := by decide
  have h1 : allocateCache junk1 nBodies nDofs nSqDofs maxNQs npc nvc nac s =
      (Outcome.returned, allocateCacheBody junk1 nBodies nDofs nSqDofs maxNQs npc nvc nac s) := by
    simp only [allocateCache, if_pos h]
  have hs : (allocateCacheBody junk1 nBodies nDofs nSqDofs maxNQs npc nvc nac s).stage
      = BuiltStage := rfl
  rw [h1]
  simp only [allocateCache, hs, if_pos hb]
  refine ⟨h, hb, trivial, rfl, rfl, ?_⟩
  simp only [fieldLengths, allocateCacheBody, StdVector.length_resize_std,
    Vector_.length_resize, Matrix_.resize_dims]

/-- The C17 statement at `sampleResults` (stage `DynamicalStage`) with the counts
`3, 5, 9, 7, 1, 2, 4`: the stage goes down to `BuiltStage` and the second call
keeps the lengths. -/
theorem allocateCache_repeatable_witness :
    BuiltStage ≤ sampleResults.stage ∧
    (allocateCache Junk.zero 3 5 9 7 1 2 4 sampleResults).2.stage ≤ sampleResults.stage ∧
    (allocateCache Junk.zero 3 5 9 7 1 2 4
      (allocateCache Junk.zero 3 5 9 7 1 2 4 sampleResults).2).2.fieldLengths
      = (allocateCache Junk.zero 3 5 9 7 1 2 4 sampleResults).2.fieldLengths :=
  have h := allocateCache_repeatable Junk.zero Junk.zero 3 5 9 7 1 2 4 sampleResults (by decide)
  ⟨by decide, h.1, h.2.2.2.2.2⟩

end SimbodyTreeResults

namespace SimbodyTreeVariables

/-- C14. For every state and all counts, `allocateAllVars` leaves the modeling
members as they were: `useEulerAngles`, `prescribed` and `enabled` (length and
every flag) are the same before and after. -/
theorem allocateAllVars_modeling_frame (junk : Junk) (nDofs maxNQs nac : Nat)
    (v : SimbodyTreeVariables) :
    (allocateAllVars junk nDofs maxNQs nac v).useEulerAngles = v.useEulerAngles ∧
    (allocateAllVars junk nDofs maxNQs nac v).prescribed = v.prescribed ∧
    (allocateAllVars junk nDofs maxNQs nac v).enabled = v.enabled := by
  simp only [allocateAllVars, and_self]

/-- The C14 statement at `sampleVariables`, whose flags are set. -/
theorem allocateAllVars_modeling_frame_witness :
    (allocateAllVars Junk.zero 1 3 5 sampleVariables).useEulerAngles = true ∧
    (allocateAllVars Junk.zero 1 3 5 sampleVariables).prescribed = [true, false, true] ∧
    (allocateAllVars Junk.zero 1 3 5 sampleVariables).enabled = [true] :=
  allocateAllVars_modeling_frame Junk.zero 1 3 5 sampleVariables

/-- C15. The numeric members `allocateAllVars` leaves depend only on `nDofs`,
`maxNQs` and the length of `prescribed`: for two states whose `prescribed` have
the same length (whatever else they hold), any two values of `nac` and any
uninitialised content, the two results have the same `q`, `u`,
`appliedBodyForces`, `appliedJointForces` and `prescribedUdot`. -/
theorem allocateAllVars_depends_only (junk junk' : Junk) (nDofs maxNQs nac nac' : Nat)
    (v v' : SimbodyTreeVariables) (h : v.prescribed.length = v'.prescribed.length) :
    (allocateAllVars junk nDofs maxNQs nac v).q
      = (allocateAllVars junk' nDofs maxNQs nac' v').q ∧
    (allocateAllVars junk nDofs maxNQs nac v).u
      = (allocateAllVars junk' nDofs maxNQs nac' v').u ∧
    (allocateAllVars junk nDofs maxNQs nac v).appliedBodyForces
      = (allocateAllVars junk' nDofs maxNQs nac' v').appliedBodyForces ∧
    (allocateAllVars junk nDofs maxNQs nac v).appliedJointForces
      = (allocateAllVars junk' nDofs maxNQs nac' v').appliedJointForces ∧
    (allocateAllVars junk nDofs maxNQs nac v).prescribedUdot
      = (allocateAllVars junk' nDofs maxNQs nac' v').prescribedUdot := by
  simp only [allocateAllVars, Vector_.setToNaN_eq, Vector_.length_resize, h, and_self]

/-- The C15 statement at `sampleVariables` (three bodies, one constraint, numeric
content present) and a state with three bodies, two constraints and no
numeric content, with `nac` 5 and 0. -/
theorem allocateAllVars_depends_only_witness :
    sampleVariables.prescribed.length
      = ({ prescribed := [false, false, false], enabled := [true, true] } :
          SimbodyTreeVariables).prescribed.length ∧
    (allocateAllVars Junk.zero 1 3 5 sampleVariables).appliedBodyForces
      = (allocateAllVars Junk.zero 1 3 0
          { prescribed := [false, false, false], enabled := [true, true] }).appliedBodyForces ∧
    (allocateAllVars Junk.zero 1 3 5 sampleVariables).q
      = (allocateAllVars Junk.zero 1 3 0
          { prescribed := [false, false, false], enabled := [true, true] }).q :=
  have h := allocateAllVars_depends_only Junk.zero Junk.zero 1 3 5 0 sampleVariables
    { prescribed := [false, false, false], enabled := [true, true] } (by decide)
  ⟨by decide, h.2.2.1, h.1⟩

/-- C16. For every state and all counts, `allocateModelingVars` leaves `q`, `u`,
`appliedBodyForces`, `appliedJointForces` and `prescribedUdot` as they were; so
after `allocateModelingVars(n1, c)`, `allocateAllVars(d, m, a)`,
`allocateModelingVars(n2, c)` the member `appliedBodyForces` has length `n1` and
`prescribed` has length `n2`, two different lengths when `n1` and `n2` differ. -/
theorem allocateModelingVars_numeric_frame (junk : Junk)
    (nBodies nConstraints n1 n2 c d m a : Nat) (v : SimbodyTreeVariables) :
    (allocateModelingVars nBodies nConstraints v).q = v.q ∧
    (allocateModelingVars nBodies nConstraints v).u = v.u ∧
    (allocateModelingVars nBodies nConstraints v).appliedBodyForces = v.appliedBodyForces ∧
    (allocateModelingVars nBodies nConstraints v).appliedJointForces = v.appliedJointForces ∧
    (allocateModelingVars nBodies nConstraints v).prescribedUdot = v.prescribedUdot ∧
    (allocateModelingVars n2 c (allocateAllVars junk d m a
      (allocateModelingVars n1 c v))).appliedBodyForces.length = n1 ∧
    (allocateModelingVars n2 c (allocateAllVars junk d m a
      (allocateModelingVars n1 c v))).prescribed.length = n2 ∧
    (n1 ≠ n2 →
      (allocateModelingVars n2 c (allocateAllVars junk d m a
        (allocateModelingVars n1 c v))).appliedBodyForces.length ≠
      (allocateModelingVars n2 c (allocateAllVars junk d m a
        (allocateModelingVars n1 c v))).prescribed.length) := by
  simp only [allocateModelingVars, allocateAllVars, StdVector.assign_eq, Vector_.length_setToNaN,
    Vector_.length_resize, List.length_replicate, true_and, ne_eq, imp_self]

/-- The C16 statement at `sampleVariables` with `n1 = 2`, `n2 = 5`: one applied
body force per body of the first allocation, five `prescribed` flags. -/
theorem allocateModelingVars_numeric_frame_witness :
    (allocateModelingVars 5 4 (allocateAllVars Junk.zero 1 3 0
      (allocateModelingVars 2 4 sampleVariables))).appliedBodyForces
      = [SpatialVec.NaN, SpatialVec.NaN] ∧
    (allocateModelingVars 5 4 (allocateAllVars Junk.zero 1 3 0
      (allocateModelingVars 2 4 sampleVariables))).prescribed.length = 5 ∧
    (allocateModelingVars 5 4 (allocateAllVars Junk.zero 1 3 0
      (allocateModelingVars 2 4 sampleVariables))).appliedBodyForces.length ≠
    (allocateModelingVars 5 4 (allocateAllVars Junk.zero 1 3 0
      (allocateModelingVars 2 4 sampleVariables))).prescribed.length :=
  have h := allocateModelingVars_numeric_frame Junk.zero 0 0 2 5 4 1 3 0 sampleVariables
  ⟨by decide, h.2.2.2.2.2.2.1, h.2.2.2.2.2.2.2 (by decide)⟩

end SimbodyTreeVariables

end simtk
